import Mathlib

/-!
Shallow embedding of the ChArUco-Calibration repository's calibration and
metrology pipeline (src/measurements.py, src/intrinsic_calibration.py,
src/extrinsic_calibration.py, src/config.py and the workflow layer in
src/Calibration_App.py).  Python floats are modelled as exact rationals;
the Euclidean norm produced by np.linalg.norm lives in ℝ.  External cv2
routines (Rodrigues, solvePnP, calibrateCameraCharuco) are parameters of
the embedded functions: the repository only consumes their results.
-/

namespace ChArUco

/-- A 3-vector of exact rationals (models a numpy float64 3-vector). -/
structure Vec3 where
  x : ℚ
  y : ℚ
  z : ℚ
deriving DecidableEq

/-- Componentwise subtraction, `a - b` on numpy vectors. -/
def Vec3.sub (a b : Vec3) : Vec3 := ⟨a.x - b.x, a.y - b.y, a.z - b.z⟩

/-- Dot product `a.dot(b)`. -/
def Vec3.dot (a b : Vec3) : ℚ := a.x * b.x + a.y * b.y + a.z * b.z

/-- Scalar multiple `s * v`. -/
def Vec3.smul (s : ℚ) (v : Vec3) : Vec3 := ⟨s * v.x, s * v.y, s * v.z⟩

/-- Sum of squared components, the square of the Euclidean norm. -/
def Vec3.sqNorm (v : Vec3) : ℚ := v.x * v.x + v.y * v.y + v.z * v.z

/-- Euclidean norm `np.linalg.norm v` as a real number. -/
noncomputable def Vec3.enorm (v : Vec3) : ℝ := Real.sqrt ((v.sqNorm : ℚ) : ℝ)

/-- A 3×3 rational matrix, row-major fields `aRC` (models a numpy 3×3 array). -/
structure Mat3 where
  a00 : ℚ
  a01 : ℚ
  a02 : ℚ
  a10 : ℚ
  a11 : ℚ
  a12 : ℚ
  a20 : ℚ
  a21 : ℚ
  a22 : ℚ
deriving DecidableEq

/-- Column 0 of the matrix, `M[:, 0]`. -/
def Mat3.col0 (m : Mat3) : Vec3 := ⟨m.a00, m.a10, m.a20⟩

/-- Column 1 of the matrix, `M[:, 1]`. -/
def Mat3.col1 (m : Mat3) : Vec3 := ⟨m.a01, m.a11, m.a21⟩

/-- Column 2 of the matrix, `M[:, 2]`. -/
def Mat3.col2 (m : Mat3) : Vec3 := ⟨m.a02, m.a12, m.a22⟩

/-- Matrix transpose `M.T`. -/
def Mat3.transpose (m : Mat3) : Mat3 :=
  ⟨m.a00, m.a10, m.a20, m.a01, m.a11, m.a21, m.a02, m.a12, m.a22⟩

/-- Matrix-vector product `M.dot(v)`. -/
def Mat3.mulVec (m : Mat3) (v : Vec3) : Vec3 :=
  ⟨m.a00 * v.x + m.a01 * v.y + m.a02 * v.z,
   m.a10 * v.x + m.a11 * v.y + m.a12 * v.z,
   m.a20 * v.x + m.a21 * v.y + m.a22 * v.z⟩

/-- The identity matrix (what cv2.Rodrigues maps the zero rotation vector to). -/
def idMat : Mat3 := ⟨1, 0, 0, 0, 1, 0, 0, 0, 1⟩

/-! ## src/measurements.py — class Measurement -/

/-- Failure modes of the measurement operations (spec error taxonomy names
for the guard returns and the RuntimeError raised in image_to_plane). -/
inductive MeasErr where
  | insufficientPoints
  | intrinsicsNotSet
  | extrinsicsNotSet
  | rayParallelToPlane
deriving DecidableEq

/-- The literal 1e-9 of the parallel-ray guard in image_to_plane. -/
def rayEps : ℚ := 1 / 1000000000

/-- State of a Measurement object: optional intrinsics (camera_matrix,
dist_coeffs), optional extrinsics (rvec, tvec) and the click_points list. -/
structure MeasState where
  camera_matrix : Option Mat3
  dist_coeffs : Option (List ℚ)
  rvec : Option Vec3
  tvec : Option Vec3
  click_points : List (ℚ × ℚ)
deriving DecidableEq

/-- Measurement.image_to_plane: project an undistorted pixel to the
measurement plane by ray-plane intersection.  `camera_matrix` and `tvec`
are the fields of self read by the method; `pt`, `R`, `plane_normal_cam`
and `d` are its parameters.  The RuntimeError on a near-parallel ray is
the rayParallelToPlane error. -/
def image_to_plane (camera_matrix : Mat3) (tvec : Vec3) (pt : ℚ × ℚ)
    (R : Mat3) (plane_normal_cam : Vec3) (d : ℚ) : Except MeasErr Vec3 :=
  let fx := camera_matrix.a00
  let fy := camera_matrix.a11
  let cx := camera_matrix.a02
  let cy := camera_matrix.a12
  let x := (pt.1 - cx) / fx
  let y := (pt.2 - cy) / fy
  let ray_cam : Vec3 := ⟨x, y, 1⟩
  let denom := plane_normal_cam.dot ray_cam
  if |denom| < rayEps then
    .error .rayParallelToPlane
  else
    let s := -d / denom
    let Xc := Vec3.smul s ray_cam
    let v := Xc.sub tvec
    .ok ⟨(R.col0).dot v, (R.col1).dot v, 0⟩

/-- Successful result of Measurement.compute_distance:
(distance_m, distance_cm, pt1_3d, pt2_3d). -/
structure MeasOk where
  distM : ℝ
  distCm : ℝ
  p1 : Vec3
  p2 : Vec3

/-- Measurement.compute_distance.  `rod` models cv2.Rodrigues (an external
routine turning the rvec into a rotation matrix).  The method mutates no
field of self, so the state-threaded translation returns the input state
in every branch. -/
noncomputable def compute_distance (rod : Vec3 → Mat3) (st : MeasState) :
    Except MeasErr MeasOk × MeasState :=
  match st.click_points with
  | p1 :: p2 :: _ =>
    match st.camera_matrix, st.dist_coeffs with
    | some K, some _dc =>
      match st.rvec, st.tvec with
      | some rv, some tv =>
        let R := rod rv
        let plane_normal_cam := R.col2
        let d := -(plane_normal_cam.dot tv)
        match image_to_plane K tv p1 R plane_normal_cam d,
              image_to_plane K tv p2 R plane_normal_cam d with
        | .ok pt1_3d, .ok pt2_3d =>
          let distance_m := (pt2_3d.sub pt1_3d).enorm
          let distance_cm := distance_m * 100
          (.ok ⟨distance_m, distance_cm, pt1_3d, pt2_3d⟩, st)
        | _, _ => (.error .rayParallelToPlane, st)
      | _, _ => (.error .extrinsicsNotSet, st)
    | _, _ => (.error .intrinsicsNotSet, st)
  | _ => (.error .insufficientPoints, st)

/-- Measurement.add_click_point: append the pixel unconditionally and
return the new number of stored points. -/
def add_click_point (st : MeasState) (pixel_coords : ℚ × ℚ) : ℕ × MeasState :=
  let st' := { st with click_points := st.click_points ++ [pixel_coords] }
  (st'.click_points.length, st')

/-- Measurement.get_click_count. -/
def get_click_count (st : MeasState) : ℕ := st.click_points.length

/-- Measurement.reset_points. -/
def reset_points (st : MeasState) : MeasState := { st with click_points := [] }

/-- True exactly on the success constructor of an Except value. -/
def exceptOk {ε α : Type} : Except ε α → Bool
  | .ok _ => true
  | .error _ => false

/-! ## src/Calibration_App.py — measurement tab workflow -/

/-- Python int() applied to a rational: truncation toward zero. -/
def pyInt (q : ℚ) : ℤ := if 0 ≤ q then ⌊q⌋ else ⌈q⌉

/-- Measurement-tab state of the application: whether a frozen frame is
displayed, the UI-side click_points list, and the Measurement object. -/
structure AppMeasState where
  frozen_frame : Bool
  click_points : List (ℚ × ℚ)
  meas : MeasState
deriving DecidableEq

/-- measurement_click: the mouse handler on the measurement view.  Ignores
the click when no frozen frame is shown or 2 points are already held;
otherwise converts the event position to image coordinates and appends the
point to both the UI list and the Measurement object.  `label_size` and
`pixmap_size` are the widget and frozen-image dimensions. -/
def measurement_click (ev : ℚ × ℚ) (label_size pixmap_size : ℚ × ℚ)
    (st : AppMeasState) : AppMeasState :=
  if st.frozen_frame = false then st
  else if 2 ≤ st.click_points.length then st
  else
    let scale_w := pixmap_size.1 / label_size.1
    let scale_h := pixmap_size.2 / label_size.2
    let scale := max scale_w scale_h
    let offset_x := (label_size.1 - pixmap_size.1 / scale) / 2
    let offset_y := (label_size.2 - pixmap_size.2 / scale) / 2
    let img_x : ℚ := (pyInt ((ev.1 - offset_x) * scale) : ℤ)
    let img_y : ℚ := (pyInt ((ev.2 - offset_y) * scale) : ℤ)
    let p := (img_x, img_y)
    { st with
      click_points := st.click_points ++ [p],
      meas := (add_click_point st.meas p).2 }

/-- Successful result of the application's compute_distance handler:
(dist_m, dist_cm, dist_mm, p1, p2), where dist_mm = dist_m * 1000 is
derived in Calibration_App.compute_distance. -/
structure AppMeasOk where
  distM : ℝ
  distCm : ℝ
  distMm : ℝ
  p1 : Vec3
  p2 : Vec3

/-- Calibration_App.compute_distance: call Measurement.compute_distance and
on success also derive dist_mm = dist_m * 1000. -/
noncomputable def app_compute_distance (rod : Vec3 → Mat3) (st : MeasState) :
    Except MeasErr AppMeasOk :=
  match (compute_distance rod st).1 with
  | .ok r => .ok ⟨r.distM, r.distCm, r.distM * 1000, r.p1, r.p2⟩
  | .error e => .error e

/-! ## Spec-side restatement of the measurement algorithm (for refinement) -/

/-- The spec's pixel-to-ray formula: r = ((px - cx)/fx, (py - cy)/fy, 1)
from the intrinsic matrix entries, no distortion correction. -/
def specRay (K : Mat3) (p : ℚ × ℚ) : Vec3 :=
  ⟨(p.1 - K.a02) / K.a00, (p.2 - K.a12) / K.a11, 1⟩

/-- The spec's ray-plane projection of one pixel: normal = third column of
R, signed offset d = -(normal . t), s = -d / (normal . r), intersection
Xc = s r, board coordinates Xb = transpose R (Xc - t) with the Z component
replaced by exactly 0; fails with RayParallelToPlane when
the absolute value of normal . r is below 1e-9. -/
def specProject (K R : Mat3) (t : Vec3) (p : ℚ × ℚ) : Except MeasErr Vec3 :=
  let normal := R.col2
  let d := -(normal.dot t)
  let r := specRay K p
  if |normal.dot r| < rayEps then
    .error .rayParallelToPlane
  else
    let s := -d / (normal.dot r)
    let Xc := Vec3.smul s r
    let Xb := (R.transpose).mulVec (Xc.sub t)
    .ok ⟨Xb.x, Xb.y, 0⟩

/-- The spec's measurement pipeline on two click points given a camera
matrix, rotation matrix and translation: project both pixels, distance =
Euclidean norm of Xb1 - Xb2 in meters, centimeters = 100 x meters,
millimeters = 1000 x meters. -/
noncomputable def specMeasure (K R : Mat3) (t : Vec3) (p1 p2 : ℚ × ℚ) :
    Except MeasErr AppMeasOk :=
  match specProject K R t p1, specProject K R t p2 with
  | .ok b1, .ok b2 =>
    let m := (b1.sub b2).enorm
    .ok ⟨m, 100 * m, 1000 * m, b1, b2⟩
  | .error e, _ => .error e
  | _, .error e => .error e

/-! ## src/config.py -/

/-- Minimum ChArUco corners required to accept a capture (config.py). -/
def MIN_CHARUCO_CORNERS : ℕ := 4

/-! ## src/intrinsic_calibration.py — class IntrinsicCalibration -/

/-- State of an IntrinsicCalibration object: the per-frame corner and id
lists and the first observed image size. -/
structure IntrinsicState where
  all_charuco_corners : List (List (ℚ × ℚ))
  all_charuco_ids : List (List ℕ)
  image_size : Option (ℕ × ℕ)
deriving DecidableEq

/-- IntrinsicCalibration.add_frame: append the frame's corners and ids,
store the passed image_size if none is stored yet, and return the new
frame count. -/
def add_frame (st : IntrinsicState) (charuco_corners : List (ℚ × ℚ))
    (charuco_ids : List ℕ) (image_size : Option (ℕ × ℕ)) :
    ℕ × IntrinsicState :=
  let st' :=
    { st with
      all_charuco_corners := st.all_charuco_corners ++ [charuco_corners],
      all_charuco_ids := st.all_charuco_ids ++ [charuco_ids] }
  let st'' :=
    if st'.image_size = none then { st' with image_size := image_size }
    else st'
  (st''.all_charuco_corners.length, st'')

/-- IntrinsicCalibration.get_frame_count. -/
def get_frame_count (st : IntrinsicState) : ℕ := st.all_charuco_corners.length

/-- IntrinsicCalibration.clear_frames. -/
def clear_frames (_st : IntrinsicState) : IntrinsicState := ⟨[], [], none⟩

/-! ## src/intrinsic_calibration.py — class CalibrationWorker -/

/-- Outcome of the external cv2.aruco.calibrateCameraCharuco call: either
it returns (ret, camera_matrix, dist_coeffs, ...) or it raises. -/
inductive CalibOutcome where
  | ok (ret : ℚ) (camera_matrix : List (List ℚ)) (dist_coeffs : List (List ℚ))
  | raised
deriving DecidableEq

/-- The calib_data record the worker emits on success (the CameraModel). -/
structure CalibData where
  camera_matrix : List (List ℚ)
  dist_coeffs : List (List ℚ)
  rms : ℚ
  image_size : ℕ × ℕ
deriving DecidableEq

/-- CalibrationWorker.run: given the solver outcome, emit
(success, data).  The source guard is `if not ret or ret > 2.0`; on a
Python float, `not ret` is true exactly when ret == 0.0, so the failure
branch (message "Calibration RMS error too high", no record) is taken
when ret = 0 or ret > 2. -/
def worker_run (outcome : CalibOutcome) (image_size : ℕ × ℕ) :
    Bool × Option CalibData :=
  match outcome with
  | .raised => (false, none)
  | .ok ret camera_matrix dist_coeffs =>
    if ret = 0 ∨ ret > 2 then (false, none)
    else (true, some ⟨camera_matrix, dist_coeffs, ret, image_size⟩)

/-! ## src/Calibration_App.py — intrinsic-calibration tab workflow -/

/-- One detection-info record delivered to the tab: corner count, the
corner and id payloads and the frame's resolution (width, height). -/
structure Detection where
  corners_detected : ℕ
  charuco_corners : List (ℚ × ℚ)
  charuco_ids : List ℕ
  frame_size : ℕ × ℕ
deriving DecidableEq

/-- Calibration-tab state: the app's first-seen image size, the latest
detection and the IntrinsicCalibration object. -/
structure CalibTab where
  image_size : Option (ℕ × ℕ)
  current_detection : Detection
  intrinsic : IntrinsicState
deriving DecidableEq

/-- update_calib_detection: store the detection and latch the first seen
frame resolution into image_size. -/
def update_calib_detection (info : Detection) (st : CalibTab) : CalibTab :=
  { st with
    current_detection := info,
    image_size :=
      if st.image_size = none then some info.frame_size else st.image_size }

/-- Failure mode of the app's capture_calibration_frame guard. -/
inductive CaptureErr where
  | insufficientCorners
deriving DecidableEq

/-- capture_calibration_frame: reject when the current detection has fewer
than MIN_CHARUCO_CORNERS corners; otherwise add the frame to the
IntrinsicCalibration store (passing the app's latched image_size) and
report the new frame count.  No resolution comparison is performed. -/
def capture_calibration_frame (st : CalibTab) : Except CaptureErr ℕ × CalibTab :=
  if st.current_detection.corners_detected < MIN_CHARUCO_CORNERS then
    (.error .insufficientCorners, st)
  else
    let r := add_frame st.intrinsic st.current_detection.charuco_corners
      st.current_detection.charuco_ids st.image_size
    (.ok r.1, { st with intrinsic := r.2 })

/-! ## Persistence (intrinsic_calibration.py / extrinsic_calibration.py) -/

/-- The JSON file written by IntrinsicCalibration.save_calibration: the
calib_data record itself (json.dump followed by json.load reproduces the
numbers exactly). -/
def save_calibration (calib_data : CalibData) : CalibData := calib_data

/-- IntrinsicCalibration.load_calibration: parse camera_matrix and
dist_coeffs back out of the file (rms and image_size are not returned). -/
def load_calibration (file : CalibData) : List (List ℚ) × List (List ℚ) :=
  (file.camera_matrix, file.dist_coeffs)

/-- The JSON file written by ExtrinsicCalibration.save_extrinsics: the
flattened rvec and tvec lists. -/
structure ExtrinFile where
  rvec : List ℚ
  tvec : List ℚ
deriving DecidableEq

/-- ExtrinsicCalibration.save_extrinsics on explicit vectors: write
rvec.flatten().tolist() and tvec.flatten().tolist(). -/
def save_extrinsics (rvec tvec : Vec3) : ExtrinFile :=
  ⟨[rvec.x, rvec.y, rvec.z], [tvec.x, tvec.y, tvec.z]⟩

/-- ExtrinsicCalibration.load_extrinsics: read the two lists back and
reshape each to a 3-vector (np.reshape(3, 1) fails unless the list has
exactly 3 entries, hence the Option). -/
def load_extrinsics (file : ExtrinFile) : Option (Vec3 × Vec3) :=
  match file.rvec, file.tvec with
  | [rx, ry, rz], [tx, ty, tz] => some (⟨rx, ry, rz⟩, ⟨tx, ty, tz⟩)
  | _, _ => none

/-! ## src/extrinsic_calibration.py — class ExtrinsicCalibration -/

/-- Failure modes of ExtrinsicCalibration.capture_pose: the ValueError
raised when intrinsics are missing, the insufficient-corners return, the
solvePnP-failed return and the caught estimation exception. -/
inductive PoseErr where
  | intrinsicsNotSet
  | insufficientCorners
  | poseSolveFailed
  | poseEstimationError
deriving DecidableEq

/-- State of an ExtrinsicCalibration object. -/
structure ExtrinState where
  camera_matrix : Option Mat3
  dist_coeffs : Option (List ℚ)
  rvec : Option Vec3
  tvec : Option Vec3
deriving DecidableEq

/-- Outcome of the external cv2.solvePnP call (together with the object
point indexing that precedes it inside the try block): a pose, a
non-converging solve (success flag false), or a raised exception. -/
inductive PnpOutcome where
  | ok (rvec tvec : Vec3)
  | noConverge
  | raised
deriving DecidableEq

/-- ExtrinsicCalibration.capture_pose: raise (here: error) when the
intrinsics are not set; fail when charuco_corners is None or holds fewer
than 4 corners; otherwise run solvePnP (the `solve` outcome) and store
rvec and tvec only on success. -/
def capture_pose (solve : PnpOutcome) (st : ExtrinState)
    (charuco_corners : Option (List (ℚ × ℚ))) :
    Except PoseErr (Vec3 × Vec3) × ExtrinState :=
  if st.camera_matrix = none ∨ st.dist_coeffs = none then
    (.error .intrinsicsNotSet, st)
  else
    match charuco_corners with
    | none => (.error .insufficientCorners, st)
    | some cs =>
      if cs.length < 4 then (.error .insufficientCorners, st)
      else
        match solve with
        | .ok rv tv =>
          (.ok (rv, tv), { st with rvec := some rv, tvec := some tv })
        | .noConverge => (.error .poseSolveFailed, st)
        | .raised => (.error .poseEstimationError, st)

/-! ## Helper lemmas -/

/-- Squared norm is symmetric in the order of subtraction. -/
theorem Vec3.sqNorm_sub_comm (a b : Vec3) : (a.sub b).sqNorm = (b.sub a).sqNorm := by
  simp only [Vec3.sub, Vec3.sqNorm]
  ring

/-- Euclidean norm is symmetric in the order of subtraction. -/
theorem Vec3.enorm_sub_comm (a b : Vec3) : (a.sub b).enorm = (b.sub a).enorm := by
  unfold Vec3.enorm
  rw [Vec3.sqNorm_sub_comm]

/-- The only error image_to_plane can produce is the parallel-ray one. -/
theorem image_to_plane_error_eq (K : Mat3) (tv : Vec3) (pt : ℚ × ℚ) (R : Mat3)
    (n : Vec3) (d : ℚ) (e : MeasErr) :
    image_to_plane K tv pt R n d = .error e → e = .rayParallelToPlane := by
  intro h
  simp only [image_to_plane] at h
  split at h
  · cases h
    rfl
  · cases h

/-- The spec's per-pixel projection coincides with the code's
image_to_plane when handed the normal and offset the code computes. -/
theorem specProject_eq_image_to_plane (K R : Mat3) (t : Vec3) (p : ℚ × ℚ) :
    specProject K R t p = image_to_plane K t p R R.col2 (-(R.col2.dot t)) := rfl

/-- compute_distance never changes the measurement state. -/
theorem compute_distance_preserves_state (rod : Vec3 → Mat3) (st : MeasState) :
    (compute_distance rod st).2 = st := by
  unfold compute_distance
  rcases st with ⟨cm, dc, rv, tv, pts⟩
  rcases pts with _ | ⟨p1, _ | ⟨p2, rest⟩⟩ <;>
    rcases cm with _ | K <;> rcases dc with _ | d <;>
    rcases rv with _ | r <;> rcases tv with _ | t <;>
    simp <;> split <;> rfl

/-! ## Concrete states used by witnesses and counterexamples -/

/-- The constant Rodrigues stub sending every rvec to the identity. -/
def rodId : Vec3 → Mat3 := fun _ => idMat

/-- A fully calibrated measurement state holding three click points. -/
def exMeas3 : MeasState :=
  ⟨some idMat, some [0, 0, 0, 0, 0], some ⟨0, 0, 0⟩, some ⟨0, 0, 1⟩,
   [(0, 0), (1, 0), (5, 5)]⟩

/-- A fully calibrated measurement state holding exactly two click points. -/
def exMeas2 : MeasState :=
  ⟨some idMat, some [0, 0, 0, 0, 0], some ⟨0, 0, 0⟩, some ⟨0, 0, 1⟩,
   [(0, 0), (1, 0)]⟩

/-- A measurement state already holding two click points (no calibration). -/
def exMeasBare2 : MeasState := ⟨none, none, none, none, [(0, 0), (1, 1)]⟩

/-! ## Claim theorems -/

/-- Claim C3, counterexample: a measurement state holding three click
points (with intrinsics and extrinsics set) is accepted by
compute_distance, refuting that it succeeds only with exactly 2 points. -/
theorem compute_distance_succeeds_with_three_points :
    exMeas3.click_points.length = 3 ∧
    exceptOk (compute_distance rodId exMeas3).1 = true := by
  constructor
  · rfl
  · norm_num [compute_distance, exMeas3, rodId, idMat, image_to_plane,
      Mat3.col0, Mat3.col1, Mat3.col2, Vec3.dot, Vec3.smul, Vec3.sub,
      rayEps, exceptOk]

/-- Claim C3 (amended): compute_distance fails with InsufficientPoints
when fewer than 2 points are held, with IntrinsicsNotSet when at least 2
points are held but the camera matrix or distortion coefficients are
missing, with ExtrinsicsNotSet when points and intrinsics are present but
rvec or tvec is missing, and any success requires at least 2 points and
both the camera model and the pose to be set (with 3 or more points it
uses the first two). -/
theorem compute_distance_guard_order (rod : Vec3 → Mat3) (st : MeasState) :
    (st.click_points.length < 2 →
      (compute_distance rod st).1 = .error .insufficientPoints) ∧
    (2 ≤ st.click_points.length →
      (st.camera_matrix = none ∨ st.dist_coeffs = none) →
      (compute_distance rod st).1 = .error .intrinsicsNotSet) ∧
    (2 ≤ st.click_points.length → st.camera_matrix ≠ none →
      st.dist_coeffs ≠ none → (st.rvec = none ∨ st.tvec = none) →
      (compute_distance rod st).1 = .error .extrinsicsNotSet) ∧
    (exceptOk (compute_distance rod st).1 = true →
      2 ≤ st.click_points.length ∧ st.camera_matrix ≠ none ∧
      st.dist_coeffs ≠ none ∧ st.rvec ≠ none ∧ st.tvec ≠ none) := by
  rcases st with ⟨cm, dc, rv, tv, pts⟩
  rcases pts with _ | ⟨p1, _ | ⟨p2, rest⟩⟩ <;>
    rcases cm with _ | K <;> rcases dc with _ | d <;>
    rcases rv with _ | r <;> rcases tv with _ | t <;>
    simp [compute_distance, exceptOk] <;>
    split <;> simp [exceptOk]

/-- Claim C3 witness: the guard theorem applied to concrete states. -/
theorem compute_distance_guard_order_witness :
    (compute_distance rodId ⟨none, none, none, none, [(0, 0)]⟩).1 =
      .error .insufficientPoints ∧
    (compute_distance rodId exMeasBare2).1 = .error .intrinsicsNotSet := by
  constructor
  · exact (compute_distance_guard_order rodId _).1 (by decide)
  · exact (compute_distance_guard_order rodId exMeasBare2).2.1 (by decide)
      (by decide)

/-- Claim C5, counterexample: Measurement.add_click_point on a state
already holding 2 points appends a third and returns count 3 instead of
being a rejected no-op. -/
theorem add_click_point_appends_beyond_two :
    exMeasBare2.click_points.length = 2 ∧
    (add_click_point exMeasBare2 (3, 3)).2 ≠ exMeasBare2 ∧
    (add_click_point exMeasBare2 (3, 3)).1 = 3 ∧
    (add_click_point exMeasBare2 (3, 3)).2.click_points.length = 3 := by
  decide

/-- Claim C5 (amended): the rejection lives in the UI click handler
measurement_click, which is a no-op once 2 points are held, so clicks
never push the session's point count past 2; with fewer than 2 points it
appends the converted pixel to both the UI list and the Measurement
object.  Measurement.add_click_point itself appends unconditionally and
returns the new count. -/
theorem click_handler_caps_points (st : AppMeasState) (ev lsz psz : ℚ × ℚ) :
    (2 ≤ st.click_points.length → measurement_click ev lsz psz st = st) ∧
    (st.click_points.length ≤ 2 →
      (measurement_click ev lsz psz st).click_points.length ≤ 2) ∧
    (st.frozen_frame = true → st.click_points.length < 2 →
      ∃ p, measurement_click ev lsz psz st =
        { st with
          click_points := st.click_points ++ [p],
          meas := (add_click_point st.meas p).2 }) ∧
    (∀ (ms : MeasState) (p : ℚ × ℚ),
      (add_click_point ms p).1 = ms.click_points.length + 1 ∧
      (add_click_point ms p).2.click_points = ms.click_points ++ [p]) := by
  refine ⟨?_, ?_, ?_, ?_⟩
  · intro h2
    unfold measurement_click
    split_ifs with hfr
    · rfl
    · rfl
  · intro hle
    unfold measurement_click
    split_ifs with hfr hcnt
    · exact hle
    · exact hle
    · simp only [not_le] at hcnt
      simp only [List.length_append, List.length_cons, List.length_nil]
      omega
  · intro hfr hlt
    unfold measurement_click
    split_ifs with h1 h2
    · rw [hfr] at h1
      cases h1
    · omega
    · exact ⟨_, rfl⟩
  · intro ms p
    constructor
    · simp [add_click_point]
    · rfl

/-- Claim C5 witness: the handler theorem applied to concrete states. -/
theorem click_handler_caps_points_witness :
    measurement_click (7, 7) (100, 100) (100, 100)
      ⟨true, [(0, 0), (1, 1)], exMeasBare2⟩ =
      ⟨true, [(0, 0), (1, 1)], exMeasBare2⟩ ∧
    (measurement_click (7, 7) (100, 100) (100, 100)
      ⟨true, [(0, 0)], ⟨none, none, none, none, [(0, 0)]⟩⟩).click_points.length
      ≤ 2 := by
  constructor
  · exact (click_handler_caps_points ⟨true, [(0, 0), (1, 1)], exMeasBare2⟩
      (7, 7) (100, 100) (100, 100)).1 (by decide)
  · exact (click_handler_caps_points ⟨true, [(0, 0)],
      ⟨none, none, none, none, [(0, 0)]⟩⟩ (7, 7) (100, 100) (100, 100)).2.1
      (by decide)

/-- Shared helper: image_to_plane rejects a ray whose denominator is below
the 1e-9 guard. -/
theorem image_to_plane_parallel (K : Mat3) (tv : Vec3) (pt : ℚ × ℚ)
    (R : Mat3) (n : Vec3) (d : ℚ) (h : |n.dot (specRay K pt)| < rayEps) :
    image_to_plane K tv pt R n d = .error .rayParallelToPlane := by
  simp only [specRay] at h
  simp only [image_to_plane]
  rw [if_pos h]

/-- Shared helper: a successful projection certifies the denominator was
at least 1e-9 in absolute value, so the division is never performed with a
near-zero denominator. -/
theorem image_to_plane_denom (K : Mat3) (tv : Vec3) (pt : ℚ × ℚ)
    (R : Mat3) (n : Vec3) (d : ℚ) (v : Vec3)
    (h : image_to_plane K tv pt R n d = .ok v) :
    rayEps ≤ |n.dot (specRay K pt)| := by
  simp only [image_to_plane] at h
  simp only [specRay]
  split at h
  · cases h
  · rename_i hcond
    exact le_of_not_lt hcond

/-- A rotation stub whose third column is (1, 0, 0), giving a plane
normal orthogonal to the optical axis. -/
def matX : Mat3 := ⟨0, 0, 1, 1, 0, 0, 0, 1, 0⟩

/-- The Rodrigues stub returning matX for every rvec. -/
def rodX : Vec3 → Mat3 := fun _ => matX

/-- A calibrated two-point state whose first click ray is parallel to the
measurement plane under rodX. -/
def exMeasPar : MeasState :=
  ⟨some idMat, some [0, 0, 0, 0, 0], some ⟨0, 0, 0⟩, some ⟨0, 0, 1⟩,
   [(0, 0), (1, 0)]⟩

/-- Claim C2: a pixel whose ray has |normal . r| below 1e-9 makes
image_to_plane fail with RayParallelToPlane; compute_distance then
reports that failure when either held point is such a pixel; and a
successful projection certifies |normal . r| was at least 1e-9, so the
division s = -d / (normal . r) never runs with a near-zero denominator
(hence no NaN or Inf can arise from a parallel ray). -/
theorem parallel_ray_fails :
    (∀ (K : Mat3) (tv : Vec3) (pt : ℚ × ℚ) (R : Mat3) (n : Vec3) (d : ℚ),
      |n.dot (specRay K pt)| < rayEps →
      image_to_plane K tv pt R n d = .error .rayParallelToPlane) ∧
    (∀ (K : Mat3) (tv : Vec3) (pt : ℚ × ℚ) (R : Mat3) (n : Vec3) (d : ℚ)
      (v : Vec3), image_to_plane K tv pt R n d = .ok v →
      rayEps ≤ |n.dot (specRay K pt)|) ∧
    (∀ (rod : Vec3 → Mat3) (st : MeasState) (K : Mat3) (rv tv : Vec3)
      (p1 p2 : ℚ × ℚ) (rest : List (ℚ × ℚ)),
      st.camera_matrix = some K → st.dist_coeffs ≠ none →
      st.rvec = some rv → st.tvec = some tv →
      st.click_points = p1 :: p2 :: rest →
      (|(rod rv).col2.dot (specRay K p1)| < rayEps ∨
       |(rod rv).col2.dot (specRay K p2)| < rayEps) →
      (compute_distance rod st).1 = .error .rayParallelToPlane) := by
  refine ⟨image_to_plane_parallel, image_to_plane_denom, ?_⟩
  intro rod st K rv tv p1 p2 rest hK hdc hrv htv hpts hpar
  obtain ⟨dcv, hdcv⟩ := Option.ne_none_iff_exists'.mp hdc
  simp only [compute_distance, hpts, hK, hdcv, hrv, htv]
  rcases hpar with hp | hp
  · rw [image_to_plane_parallel K tv p1 (rod rv) ((rod rv).col2) _ hp]
  · cases h1 : image_to_plane K tv p1 (rod rv) ((rod rv).col2)
        (-(((rod rv).col2).dot tv)) with
    | error e => rfl
    | ok b1 =>
      rw [image_to_plane_parallel K tv p2 (rod rv) ((rod rv).col2) _ hp]

/-- Claim C2 witness: the theorem applied to a concrete parallel
configuration. -/
theorem parallel_ray_fails_witness :
    image_to_plane idMat ⟨0, 0, 1⟩ (0, 0) matX ⟨1, 0, 0⟩ 5 =
      .error .rayParallelToPlane ∧
    (compute_distance rodX exMeasPar).1 = .error .rayParallelToPlane := by
  constructor
  · exact parallel_ray_fails.1 idMat ⟨0, 0, 1⟩ (0, 0) matX ⟨1, 0, 0⟩ 5
      (by norm_num [Vec3.dot, specRay, idMat, rayEps])
  · exact parallel_ray_fails.2.2 rodX exMeasPar idMat ⟨0, 0, 0⟩ ⟨0, 0, 1⟩
      (0, 0) (1, 0) [] rfl (by decide) rfl rfl rfl
      (Or.inl (by norm_num [Vec3.dot, specRay, idMat, matX, rodX,
        Mat3.col2, rayEps]))

/-- Calibration-tab state holding one stored frame at resolution 640x480,
with a current detection of 5 corners from a 1280x720 frame. -/
def exTab : CalibTab :=
  ⟨some (640, 480),
   ⟨5, [(0, 0), (1, 0), (2, 0), (3, 0), (4, 0)], [0, 1, 2, 3, 4],
    (1280, 720)⟩,
   ⟨[[(9, 9), (8, 8), (7, 7), (6, 6)]], [[0, 1, 2, 3]], some (640, 480)⟩⟩

/-- Calibration-tab state whose current detection has only 3 corners. -/
def exTabLow : CalibTab :=
  ⟨some (640, 480), ⟨3, [(0, 0), (1, 0), (2, 0)], [0, 1, 2], (640, 480)⟩,
   ⟨[], [], none⟩⟩

/-- Claim C4, counterexample: a frame whose resolution (1280x720) differs
from the stored first resolution (640x480) is accepted by the capture
operation (frame count goes from 1 to 2); no ImageSizeMismatch failure
exists in the code. -/
theorem capture_frame_accepts_mismatched_resolution :
    exTab.intrinsic.image_size = some (640, 480) ∧
    exTab.current_detection.frame_size = (1280, 720) ∧
    (capture_calibration_frame exTab).1 = .ok 2 := by
  refine ⟨rfl, rfl, rfl⟩

/-- Claim C4 (amended): the capture operation fails with
InsufficientCorners when the detection's correspondence count is below
MIN_CHARUCO_CORNERS (4) and leaves the state unchanged; otherwise it
succeeds, increments the frame count by exactly 1, and stores the first
observed imageSize.  No resolution comparison is performed, so differing
resolutions are accepted rather than failing with ImageSizeMismatch. -/
theorem capture_frame_behavior (st : CalibTab) :
    (st.current_detection.corners_detected < MIN_CHARUCO_CORNERS →
      capture_calibration_frame st = (.error .insufficientCorners, st)) ∧
    (MIN_CHARUCO_CORNERS ≤ st.current_detection.corners_detected →
      (capture_calibration_frame st).1 =
        .ok (get_frame_count st.intrinsic + 1) ∧
      get_frame_count (capture_calibration_frame st).2.intrinsic =
        get_frame_count st.intrinsic + 1 ∧
      (capture_calibration_frame st).2.intrinsic.image_size =
        (if st.intrinsic.image_size = none then st.image_size
         else st.intrinsic.image_size)) := by
  constructor
  · intro h
    unfold capture_calibration_frame
    rw [if_pos h]
  · intro h
    unfold capture_calibration_frame add_frame get_frame_count
    rw [if_neg (by omega)]
    by_cases h1 : st.intrinsic.image_size = none <;>
      simp [h1, List.length_append]

/-- Claim C4 witness: the amended theorem at concrete states. -/
theorem capture_frame_behavior_witness :
    capture_calibration_frame exTabLow = (.error .insufficientCorners, exTabLow) ∧
    (capture_calibration_frame exTab).1 = .ok 2 := by
  constructor
  · exact (capture_frame_behavior exTabLow).1 (by decide)
  · exact ((capture_frame_behavior exTab).2 (by decide)).1

/-- Claim C6: at an RMS return value of exactly 0 (perfect, noise-free
data) the worker takes the failure branch and emits no calibration
record, because the Python guard `not ret` on a float is true at 0.0;
this contradicts the claim that any RMS at most 2.0 is accepted. -/
theorem worker_run_fails_at_zero_rms :
    worker_run (CalibOutcome.ok 0 [[1, 0, 0], [0, 1, 0], [0, 0, 1]]
      [[0, 0, 0, 0, 0]]) (640, 480) = (false, none) ∧
    worker_run (CalibOutcome.ok 1 [[1, 0, 0], [0, 1, 0], [0, 0, 1]]
      [[0, 0, 0, 0, 0]]) (640, 480) =
      (true, some ⟨[[1, 0, 0], [0, 1, 0], [0, 0, 1]], [[0, 0, 0, 0, 0]],
        1, (640, 480)⟩) := by
  constructor
  · simp [worker_run]
  · norm_num [worker_run]

/-- Claim C7: persistence round-trips are lossless on the numeric fields.
Loading a saved calibration file reproduces camera_matrix and dist_coeffs
exactly (the file also keeps rms and image_size unchanged), and for the
pose, save-load-save equals save exactly. -/
theorem calibration_roundtrip :
    (∀ d : CalibData,
      load_calibration (save_calibration d) = (d.camera_matrix, d.dist_coeffs) ∧
      (save_calibration d).rms = d.rms ∧
      (save_calibration d).image_size = d.image_size) ∧
    (∀ r t : Vec3,
      load_extrinsics (save_extrinsics r t) = some (r, t) ∧
      Option.map (fun p : Vec3 × Vec3 => save_extrinsics p.1 p.2)
        (load_extrinsics (save_extrinsics r t)) = some (save_extrinsics r t)) :=
  ⟨fun _ => ⟨rfl, rfl, rfl⟩, fun _ _ => ⟨rfl, rfl⟩⟩

/-- Claim C8: capture_pose rejects with IntrinsicsNotSet whenever the
camera model is missing; with intrinsics set it rejects with
InsufficientCorners whenever the corners are absent or fewer than 4; with
both preconditions met a non-converging solve fails with PoseSolveFailed
and a converging one returns the pose; and when either precondition
fails the result does not depend on the solver at all (pose estimation is
never run). -/
theorem capture_pose_guards (st : ExtrinState) (cs : Option (List (ℚ × ℚ))) :
    (∀ solve, st.camera_matrix = none ∨ st.dist_coeffs = none →
      (capture_pose solve st cs).1 = .error .intrinsicsNotSet) ∧
    (∀ solve, st.camera_matrix ≠ none → st.dist_coeffs ≠ none →
      (∀ l, cs = some l → l.length < 4) →
      (capture_pose solve st cs).1 = .error .insufficientCorners) ∧
    (∀ l, st.camera_matrix ≠ none → st.dist_coeffs ≠ none → cs = some l →
      4 ≤ l.length →
      (capture_pose PnpOutcome.noConverge st cs).1 = .error .poseSolveFailed ∧
      ∀ rv tv, (capture_pose (PnpOutcome.ok rv tv) st cs).1 = .ok (rv, tv)) ∧
    (∀ solve1 solve2,
      (st.camera_matrix = none ∨ st.dist_coeffs = none ∨
        (∀ l, cs = some l → l.length < 4)) →
      capture_pose solve1 st cs = capture_pose solve2 st cs) := by
  refine ⟨?_, ?_, ?_, ?_⟩
  · intro solve h
    unfold capture_pose
    rw [if_pos h]
  · intro solve hcm hdc hlt
    unfold capture_pose
    rw [if_neg (by tauto)]
    cases cs with
    | none => rfl
    | some l =>
      simp only
      rw [if_pos (hlt l rfl)]
  · intro l hcm hdc hcs hge
    subst hcs
    constructor
    · unfold capture_pose
      rw [if_neg (by tauto)]
      simp only
      rw [if_neg (by omega)]
    · intro rv tv
      unfold capture_pose
      rw [if_neg (by tauto)]
      simp only
      rw [if_neg (by omega)]
  · intro solve1 solve2 h
    unfold capture_pose
    rcases h with h | h | h
    · rw [if_pos (Or.inl h), if_pos (Or.inl h)]
    · rw [if_pos (Or.inr h), if_pos (Or.inr h)]
    · by_cases hset : st.camera_matrix = none ∨ st.dist_coeffs = none
      · rw [if_pos hset, if_pos hset]
      · rw [if_neg hset, if_neg hset]
        cases cs with
        | none => rfl
        | some l =>
          simp only
          rw [if_pos (h l rfl), if_pos (h l rfl)]

/-- A pose-solver state with intrinsics loaded and no pose yet. -/
def exExtrin : ExtrinState := ⟨some idMat, some [0, 0, 0, 0, 0], none, none⟩

/-- Four detected corners for the pose-capture witnesses. -/
def exCorners4 : List (ℚ × ℚ) := [(0, 0), (1, 0), (0, 1), (1, 1)]

/-- Claim C8 witness: the guard theorem at concrete states. -/
theorem capture_pose_guards_witness :
    (capture_pose PnpOutcome.noConverge ⟨none, none, none, none⟩
      (some exCorners4)).1 = .error .intrinsicsNotSet ∧
    (capture_pose PnpOutcome.noConverge exExtrin (some [(0, 0)])).1 =
      .error .insufficientCorners ∧
    (capture_pose PnpOutcome.noConverge exExtrin (some exCorners4)).1 =
      .error .poseSolveFailed := by
  refine ⟨?_, ?_, ?_⟩
  · exact (capture_pose_guards ⟨none, none, none, none⟩
      (some exCorners4)).1 PnpOutcome.noConverge (Or.inl rfl)
  · exact (capture_pose_guards exExtrin (some [(0, 0)])).2.1
      PnpOutcome.noConverge (by decide) (by decide)
      (fun l hl => by cases hl; decide)
  · exact ((capture_pose_guards exExtrin (some exCorners4)).2.2.1
      exCorners4 (by decide) (by decide) rfl (by decide)).1

/-- Claim C9: with exactly 2 points held and the camera model and pose
set, compute_distance leaves the state unchanged, so calling it twice in
succession returns the identical result. -/
theorem compute_distance_idempotent (rod : Vec3 → Mat3) (st : MeasState)
    (h2 : st.click_points.length = 2) (hK : st.camera_matrix ≠ none)
    (hdc : st.dist_coeffs ≠ none) (hrv : st.rvec ≠ none)
    (htv : st.tvec ≠ none) :
    (compute_distance rod st).2 = st ∧
    compute_distance rod ((compute_distance rod st).2) =
      compute_distance rod st := by
  refine ⟨compute_distance_preserves_state rod st, ?_⟩
  rw [compute_distance_preserves_state rod st]

/-- Claim C9 witness: the idempotence theorem at a concrete state. -/
theorem compute_distance_idempotent_witness :
    (compute_distance rodId exMeas2).2 = exMeas2 ∧
    compute_distance rodId ((compute_distance rodId exMeas2).2) =
      compute_distance rodId exMeas2 :=
  compute_distance_idempotent rodId exMeas2 (by decide) (by decide)
    (by decide) (by decide) (by decide)

/-- Claim C10: whenever capture_pose returns a failure the stored rvec and
tvec are left exactly as they were before the call; they are assigned
only on the success path. -/
theorem capture_pose_preserves_pose_on_failure (solve : PnpOutcome)
    (st : ExtrinState) (cs : Option (List (ℚ × ℚ))) :
    (∀ e, (capture_pose solve st cs).1 = .error e →
      (capture_pose solve st cs).2 = st) ∧
    (∀ rv tv, (capture_pose solve st cs).1 = .ok (rv, tv) →
      (capture_pose solve st cs).2 =
        { st with rvec := some rv, tvec := some tv }) := by
  constructor
  · intro e hh
    by_cases h : st.camera_matrix = none ∨ st.dist_coeffs = none
    · simp [capture_pose, h]
    · cases cs with
      | none => simp [capture_pose, h]
      | some l =>
        by_cases hlen : l.length < 4
        · simp [capture_pose, h, hlen]
        · cases solve with
          | ok rv0 tv0 => simp [capture_pose, h, hlen] at hh
          | noConverge => simp [capture_pose, h, hlen]
          | raised => simp [capture_pose, h, hlen]
  · intro rv tv hh
    by_cases h : st.camera_matrix = none ∨ st.dist_coeffs = none
    · simp [capture_pose, h] at hh
    · cases cs with
      | none => simp [capture_pose, h] at hh
      | some l =>
        by_cases hlen : l.length < 4
        · simp [capture_pose, h, hlen] at hh
        · cases solve with
          | ok rv0 tv0 =>
            simp [capture_pose, h, hlen] at hh
            obtain ⟨h1, h2⟩ := hh
            subst h1
            subst h2
            simp [capture_pose, h, hlen]
          | noConverge => simp [capture_pose, h, hlen] at hh
          | raised => simp [capture_pose, h, hlen] at hh

/-- Claim C10 witness: the preservation theorem at concrete states, on a
failing call and on a succeeding one. -/
theorem capture_pose_preserves_pose_on_failure_witness :
    (capture_pose PnpOutcome.noConverge exExtrin (some exCorners4)).2 =
      exExtrin ∧
    (capture_pose (PnpOutcome.ok ⟨1, 2, 3⟩ ⟨4, 5, 6⟩) exExtrin
      (some exCorners4)).2 =
      { exExtrin with rvec := some ⟨1, 2, 3⟩, tvec := some ⟨4, 5, 6⟩ } := by
  constructor
  · exact (capture_pose_preserves_pose_on_failure PnpOutcome.noConverge
      exExtrin (some exCorners4)).1 PoseErr.poseSolveFailed rfl
  · exact (capture_pose_preserves_pose_on_failure
      (PnpOutcome.ok ⟨1, 2, 3⟩ ⟨4, 5, 6⟩) exExtrin (some exCorners4)).2
      ⟨1, 2, 3⟩ ⟨4, 5, 6⟩ rfl

/-- Shared helper: specMeasure fails when the first projection fails. -/
theorem specMeasure_err1 (K R : Mat3) (t : Vec3) (p1 p2 : ℚ × ℚ) (e : MeasErr)
    (h1 : specProject K R t p1 = .error e) :
    specMeasure K R t p1 p2 = .error e := by
  unfold specMeasure
  rw [h1]
  cases h2 : specProject K R t p2 <;> rfl

/-- Shared helper: specMeasure fails when the second projection fails. -/
theorem specMeasure_err2 (K R : Mat3) (t : Vec3) (p1 p2 : ℚ × ℚ) (b1 : Vec3)
    (e : MeasErr) (h1 : specProject K R t p1 = .ok b1)
    (h2 : specProject K R t p2 = .error e) :
    specMeasure K R t p1 p2 = .error e := by
  unfold specMeasure
  rw [h1, h2]

/-- Shared helper: specMeasure on two successful projections yields the
norm of Xb1 - Xb2 with its centimeter and millimeter scalings. -/
theorem specMeasure_ok_ok (K R : Mat3) (t : Vec3) (p1 p2 : ℚ × ℚ)
    (b1 b2 : Vec3) (h1 : specProject K R t p1 = .ok b1)
    (h2 : specProject K R t p2 = .ok b2) :
    specMeasure K R t p1 p2 =
      .ok ⟨(b1.sub b2).enorm, 100 * (b1.sub b2).enorm,
        1000 * (b1.sub b2).enorm, b1, b2⟩ := by
  unfold specMeasure
  rw [h1, h2]

/-- Claim C1: on a state holding a camera matrix, a pose and exactly two
click points, the measurement pipeline (Measurement.compute_distance plus
the app handler deriving millimeters) equals the spec's ray-plane
intersection algorithm: rays r = ((px-cx)/fx, (py-cy)/fy, 1) with no
distortion correction, plane normal = third column of R with offset
d = -(normal . t), intersection Xc = s r with s = -d / (normal . r),
board coordinates Xb = transpose R (Xc - t) with Z replaced by exactly 0,
distance = Euclidean norm of Xb1 - Xb2 in meters, and centimeters and
millimeters derived by the fixed factors 100 and 1000. -/
theorem compute_distance_follows_ray_plane_spec (rod : Vec3 → Mat3)
    (st : MeasState) (K : Mat3) (dc : List ℚ) (rv tv : Vec3) (p1 p2 : ℚ × ℚ)
    (hK : st.camera_matrix = some K) (hdc : st.dist_coeffs = some dc)
    (hrv : st.rvec = some rv) (htv : st.tvec = some tv)
    (hpts : st.click_points = [p1, p2]) :
    app_compute_distance rod st = specMeasure K (rod rv) tv p1 p2 := by
  simp only [app_compute_distance, compute_distance, hpts, hK, hdc, hrv, htv]
  have e1 := specProject_eq_image_to_plane K (rod rv) tv p1
  have e2 := specProject_eq_image_to_plane K (rod rv) tv p2
  cases h1 : image_to_plane K tv p1 (rod rv) ((rod rv).col2)
      (-(((rod rv).col2).dot tv)) with
  | error e =>
    have he := image_to_plane_error_eq K tv p1 (rod rv) _ _ e h1
    subst he
    rw [specMeasure_err1 K (rod rv) tv p1 p2 _ (e1.trans h1)]
  | ok b1 =>
    cases h2 : image_to_plane K tv p2 (rod rv) ((rod rv).col2)
        (-(((rod rv).col2).dot tv)) with
    | error e =>
      have he := image_to_plane_error_eq K tv p2 (rod rv) _ _ e h2
      subst he
      rw [specMeasure_err2 K (rod rv) tv p1 p2 b1 _ (e1.trans h1) (e2.trans h2)]
    | ok b2 =>
      rw [specMeasure_ok_ok K (rod rv) tv p1 p2 b1 b2 (e1.trans h1)
        (e2.trans h2)]
      show Except.ok ⟨(b2.sub b1).enorm, (b2.sub b1).enorm * 100,
        (b2.sub b1).enorm * 1000, b1, b2⟩ =
        (.ok ⟨(b1.sub b2).enorm, 100 * (b1.sub b2).enorm,
          1000 * (b1.sub b2).enorm, b1, b2⟩ : Except MeasErr AppMeasOk)
      rw [Vec3.enorm_sub_comm b2 b1, mul_comm ((b1.sub b2).enorm) 100,
        mul_comm ((b1.sub b2).enorm) 1000]

/-- Claim C1 witness: the refinement theorem at a concrete calibrated
two-point state. -/
theorem compute_distance_follows_ray_plane_spec_witness :
    app_compute_distance rodId exMeas2 =
      specMeasure idMat (rodId ⟨0, 0, 0⟩) ⟨0, 0, 1⟩ (0, 0) (1, 0) :=
  compute_distance_follows_ray_plane_spec rodId exMeas2 idMat
    [0, 0, 0, 0, 0] ⟨0, 0, 0⟩ ⟨0, 0, 1⟩ (0, 0) (1, 0) rfl rfl rfl rfl rfl

end ChArUco
